import Mathlib

/-!
Verification of `frontend/src/hooks/useSubscriptions.ts`: client-side
subscription/feature-gating hooks and the Stripe checkout-session mutation.

The TypeScript hooks are shallowly embedded as Lean definitions:

* A React-Query `useQuery({queryKey, queryFn, staleTime})` call is embedded as a
  `UseQueryResult` record.  The `queryFn` values in this file are async thunks
  that never await and never throw, so each is embedded by the value it
  resolves with.
* A `useMutation({mutationFn})` call is embedded as a `UseMutationResult`
  record holding the mutation function.
* The checkout mutation's effects (the `useActor` collaborator, the
  `window.location` read and the single remote call) are made explicit: the
  actor is an injected optional function, the location is a parameter read at
  call time, and the mutation returns both its settled outcome and the list of
  remote invocations it performed, so that "exactly one call, no retry" is a
  provable statement.
* JavaScript exceptions/promise rejections are embedded as the `Except String`
  error channel carrying the error message.
-/

/- -------------------- Types -------------------- -/

inductive FeatureScope : Type
| user : FeatureScope
| club : FeatureScope
| team : FeatureScope
deriving DecidableEq, Repr

inductive Plan : Type
| Free : Plan
| Plus : Plan
| Pro : Plan
deriving DecidableEq, Repr

structure FeatureAccess : Type where
  hasAccess : Bool
  plan : Option Plan := none
  reason : Option String := none
deriving DecidableEq, Repr

/-- Minimal type for checkout items (`{ priceId: string; quantity: number }`). -/
structure ShoppingItem : Type where
  priceId : String
  quantity : Int
deriving DecidableEq, Repr

/- -------------------- Query / mutation embedding -------------------- -/

/-- One component of a React-Query `queryKey` array.  The keys in this file
mix plain strings, a `FeatureScope` value and an optional string. -/
inductive QueryKeyPart : Type
| str : String → QueryKeyPart
| scope : FeatureScope → QueryKeyPart
| optStr : Option String → QueryKeyPart
deriving DecidableEq, Repr

/-- Embedding of a `useQuery({queryKey, queryFn, staleTime})` result.  Every
`queryFn` in the source file is an async thunk with no await and no throw, so
it is embedded by the value it resolves with. -/
structure UseQueryResult (α : Type) : Type where
  queryKey : List QueryKeyPart
  queryFn : α
  staleTime : Nat

/-- Embedding of a `useMutation({mutationFn})` result. -/
structure UseMutationResult (ι : Type) (α : Type) : Type where
  mutationFn : ι → α

/- -------------------- Feature Access -------------------- -/

/-- The fixed allow-list of always-free features
(`const freeAllowed = new Set<string>([])` — empty in the source, the
example entry `'basic_chat'` is commented out). -/
def freeAllowed : List String := []

/-- The body of the `queryFn` closure of `useCanAccessFeature`: it captures
only `feature`; `scope` and `scopeId` do not occur in it. -/
def canAccessFeatureQueryFn (feature : String) : FeatureAccess :=
  if freeAllowed.contains feature then
    { hasAccess := true, plan := some Plan.Free }
  else
    { hasAccess := false, plan := some Plan.Free, reason := some "stubbed" }

/-- `useCanAccessFeature(feature, scope = 'user', scopeId?)`. -/
def useCanAccessFeature (feature : String) (scope : FeatureScope := FeatureScope.user)
    (scopeId : Option String := none) : UseQueryResult FeatureAccess :=
  { queryKey := [QueryKeyPart.str "feature-access", QueryKeyPart.str feature,
      QueryKeyPart.scope scope, QueryKeyPart.optStr scopeId]
    queryFn := canAccessFeatureQueryFn feature
    staleTime := 60000 }

/-- `export const useFeatureAccess = useCanAccessFeature`. -/
def useFeatureAccess : String → FeatureScope → Option String → UseQueryResult FeatureAccess :=
  fun feature scope scopeId => useCanAccessFeature feature scope scopeId

/-- `useCanAccessProFeatures = () => useCanAccessFeature('pro_features', 'user')`. -/
def useCanAccessProFeatures : UseQueryResult FeatureAccess :=
  useCanAccessFeature "pro_features" FeatureScope.user

/-- `useCanAccessAdvancedChat = (scope = 'club', scopeId?) =>
useCanAccessFeature('advanced_chat', scope, scopeId)`. -/
def useCanAccessAdvancedChat (scope : FeatureScope := FeatureScope.club)
    (scopeId : Option String := none) : UseQueryResult FeatureAccess :=
  useCanAccessFeature "advanced_chat" scope scopeId

/-- `useCanAccessSocialFeed = (scope = 'club', scopeId?) =>
useCanAccessFeature('social_feed', scope, scopeId)`. -/
def useCanAccessSocialFeed (scope : FeatureScope := FeatureScope.club)
    (scopeId : Option String := none) : UseQueryResult FeatureAccess :=
  useCanAccessFeature "social_feed" scope scopeId

/-- `useCanCreateUnlimitedAnnouncements = (scope = 'club', scopeId?) =>
useCanAccessFeature('unlimited_announcements', scope, scopeId)`. -/
def useCanCreateUnlimitedAnnouncements (scope : FeatureScope := FeatureScope.club)
    (scopeId : Option String := none) : UseQueryResult FeatureAccess :=
  useCanAccessFeature "unlimited_announcements" scope scopeId

/- -------------------- Subscription Status (stubs) -------------------- -/

inductive SubStatus : Type
| active : SubStatus
| canceled : SubStatus
| noneStatus : SubStatus
deriving DecidableEq, Repr

structure SubscriptionStatus : Type where
  plan : Plan
  status : SubStatus
deriving DecidableEq, Repr

structure SubscriptionRecord : Type where
  id : String
  plan : Plan
  status : String
deriving DecidableEq, Repr

/-- `useGetSubscriptionStatus`: stub query returning `{plan:'Free', status:'none'}`. -/
def useGetSubscriptionStatus : UseQueryResult SubscriptionStatus :=
  { queryKey := [QueryKeyPart.str "subscription-status"]
    queryFn := { plan := Plan.Free, status := SubStatus.noneStatus }
    staleTime := 60000 }

/-- `useHasProAccess`: stub query returning `false`. -/
def useHasProAccess : UseQueryResult Bool :=
  { queryKey := [QueryKeyPart.str "has-pro-access"]
    queryFn := false
    staleTime := 60000 }

/-- `useGetAllSubscriptions`: stub query returning `[]`. -/
def useGetAllSubscriptions : UseQueryResult (List SubscriptionRecord) :=
  { queryKey := [QueryKeyPart.str "all-subscriptions"]
    queryFn := []
    staleTime := 60000 }

/- -------------------- Subscription mutations (stubs) -------------------- -/

structure UpgradeOpts : Type where
  paymentMethodId : Option String := none
deriving DecidableEq, Repr

structure MutationOutcome : Type where
  success : Bool
deriving DecidableEq, Repr

/-- `useUpgradeToProPlan`: mutation whose `mutationFn` ignores its optional
argument and resolves to `{success:false}`. -/
def useUpgradeToProPlan : UseMutationResult (Option UpgradeOpts) MutationOutcome :=
  { mutationFn := fun _ => { success := false } }

/-- `useCancelProSubscription`: mutation with no input, always `{success:false}`. -/
def useCancelProSubscription : UseMutationResult Unit MutationOutcome :=
  { mutationFn := fun _ => { success := false } }

/- -------------------- JSON (model of the JSON.parse builtin) -------------------- -/

/-- JSON values, as produced by the JavaScript `JSON.parse` builtin.  Numbers
are kept as their source literal (JavaScript would represent them as floats;
no claim inspects a numeric value). -/
inductive Json : Type
| null : Json
| bool : Bool → Json
| num : String → Json
| str : String → Json
| arr : List Json → Json
| obj : List (String × Json) → Json

def quoteChar : Char := Char.ofNat 34

def backslashChar : Char := Char.ofNat 92

def lbraceChar : Char := Char.ofNat 123

def rbraceChar : Char := Char.ofNat 125

/-- JSON whitespace: space, tab, line feed, carriage return. -/
def isJsonWs (c : Char) : Bool :=
  c = ' ' || c = Char.ofNat 9 || c = Char.ofNat 10 || c = Char.ofNat 13

def skipWs : List Char → List Char
| [] => []
| c :: cs => if isJsonWs c then skipWs cs else c :: cs

/-- Strip an expected keyword (`null`, `true`, `false`) from the input. -/
def stripKeyword : List Char → List Char → Option (List Char)
| [], cs => some cs
| _ :: _, [] => none
| k :: ks, c :: cs => if c = k then stripKeyword ks cs else none

/-- Value of a hexadecimal digit, `none` for any other character. -/
def hexVal (c : Char) : Option Nat :=
  if c.isDigit then some (c.toNat - 48)
  else if 'a' ≤ c && c ≤ 'f' then some (c.toNat - 87)
  else if 'A' ≤ c && c ≤ 'F' then some (c.toNat - 55)
  else none

/-- Body of a JSON string after the opening quote; `acc` holds the decoded
characters in reverse.  Mirrors `JSON.parse` escapes (the model accepts
unescaped control characters, which strict JSON would reject; no claim
depends on that corner). -/
def parseStringAux : List Char → List Char → Except String (String × List Char)
| _, [] => Except.error "SyntaxError: Unterminated string in JSON"
| acc, c :: cs =>
  if c = quoteChar then Except.ok (String.mk acc.reverse, cs)
  else if c = backslashChar then
    match cs with
    | [] => Except.error "SyntaxError: Unterminated string in JSON"
    | e :: cs2 =>
      if e = quoteChar then parseStringAux (quoteChar :: acc) cs2
      else if e = backslashChar then parseStringAux (backslashChar :: acc) cs2
      else if e = '/' then parseStringAux ('/' :: acc) cs2
      else if e = 'n' then parseStringAux (Char.ofNat 10 :: acc) cs2
      else if e = 't' then parseStringAux (Char.ofNat 9 :: acc) cs2
      else if e = 'r' then parseStringAux (Char.ofNat 13 :: acc) cs2
      else if e = 'b' then parseStringAux (Char.ofNat 8 :: acc) cs2
      else if e = 'f' then parseStringAux (Char.ofNat 12 :: acc) cs2
      else if e = 'u' then
        match cs2 with
        | h1 :: h2 :: h3 :: h4 :: cs3 =>
          match hexVal h1, hexVal h2, hexVal h3, hexVal h4 with
          | some a, some b, some c3, some d =>
            parseStringAux (Char.ofNat (((a * 16 + b) * 16 + c3) * 16 + d) :: acc) cs3
          | _, _, _, _ => Except.error "SyntaxError: Bad Unicode escape in JSON"
        | _ => Except.error "SyntaxError: Bad Unicode escape in JSON"
      else Except.error "SyntaxError: Bad escaped character in JSON"
  else parseStringAux (c :: acc) cs

/-- Consume a leading run of decimal digits. -/
def takeDigits : List Char → List Char × List Char
| [] => ([], [])
| c :: cs =>
  if c.isDigit then
    let p := takeDigits cs
    (c :: p.1, p.2)
  else ([], c :: cs)

/-- Exponent tail of a JSON number (after `e`/`E`). -/
def parseExpTail : List Char → Except String (List Char × List Char)
| cs =>
  let signAndRest : List Char × List Char :=
    match cs with
    | c :: cs2 => if c = '+' || c = '-' then ([c], cs2) else ([], c :: cs2)
    | [] => ([], [])
  let d := takeDigits signAndRest.2
  if d.1.isEmpty then Except.error "SyntaxError: Exponent part is missing a number in JSON"
  else Except.ok (signAndRest.1 ++ d.1, d.2)

/-- A JSON number starting at `cs` (an optional minus sign has already been
checked by the caller); the literal is returned verbatim.  (The model accepts
leading zeros that strict JSON rejects; no claim involves numbers.) -/
def parseNumberBody : List Char → Except String (String × List Char)
| cs =>
  let neg : List Char × List Char :=
    match cs with
    | c :: cs2 => if c = '-' then (['-'], cs2) else ([], c :: cs2)
    | [] => ([], [])
  let intPart := takeDigits neg.2
  if intPart.1.isEmpty then Except.error "SyntaxError: Unexpected token in JSON"
  else
    match intPart.2 with
    | '.' :: cs3 =>
      let frac := takeDigits cs3
      if frac.1.isEmpty then Except.error "SyntaxError: Unterminated fractional number in JSON"
      else
        match frac.2 with
        | c :: cs4 =>
          if c = 'e' || c = 'E' then
            match parseExpTail cs4 with
            | Except.ok p =>
              Except.ok (String.mk (neg.1 ++ intPart.1 ++ '.' :: frac.1 ++ c :: p.1), p.2)
            | Except.error e => Except.error e
          else Except.ok (String.mk (neg.1 ++ intPart.1 ++ '.' :: frac.1), c :: cs4)
        | [] => Except.ok (String.mk (neg.1 ++ intPart.1 ++ '.' :: frac.1), [])
    | c :: cs3 =>
      if c = 'e' || c = 'E' then
        match parseExpTail cs3 with
        | Except.ok p => Except.ok (String.mk (neg.1 ++ intPart.1 ++ c :: p.1), p.2)
        | Except.error e => Except.error e
      else Except.ok (String.mk (neg.1 ++ intPart.1), c :: cs3)
    | [] => Except.ok (String.mk (neg.1 ++ intPart.1), [])

mutual

/-- One JSON value starting at the input (whitespace allowed first), as
`JSON.parse` reads it; returns the value and the unconsumed remainder.
`fuel` bounds the recursion depth; `jsonParse` supplies more fuel than any
input can consume. -/
def parseValue : Nat → List Char → Except String (Json × List Char)
| 0, _ => Except.error "SyntaxError: JSON input exhausted parser fuel"
| Nat.succ fuel, input =>
  match skipWs input with
  | [] => Except.error "SyntaxError: Unexpected end of JSON input"
  | c :: rest =>
    if c = quoteChar then
      match parseStringAux [] rest with
      | Except.ok p => Except.ok (Json.str p.1, p.2)
      | Except.error e => Except.error e
    else if c = lbraceChar then parseObjectBody fuel (skipWs rest) true []
    else if c = '[' then parseArrayBody fuel (skipWs rest) true []
    else if c = 'n' then
      match stripKeyword ['u', 'l', 'l'] rest with
      | some r => Except.ok (Json.null, r)
      | none => Except.error "SyntaxError: Unexpected token in JSON"
    else if c = 't' then
      match stripKeyword ['r', 'u', 'e'] rest with
      | some r => Except.ok (Json.bool true, r)
      | none => Except.error "SyntaxError: Unexpected token in JSON"
    else if c = 'f' then
      match stripKeyword ['a', 'l', 's', 'e'] rest with
      | some r => Except.ok (Json.bool false, r)
      | none => Except.error "SyntaxError: Unexpected token in JSON"
    else if c = '-' || c.isDigit then
      match parseNumberBody (c :: rest) with
      | Except.ok p => Except.ok (Json.num p.1, p.2)
      | Except.error e => Except.error e
    else Except.error "SyntaxError: Unexpected token in JSON"

/-- Elements of a JSON array after `[`; the input is already
whitespace-skipped, `first` is true before the first element (so `]` may
close an empty array, but a trailing comma is rejected, as in `JSON.parse`). -/
def parseArrayBody : Nat → List Char → Bool → List Json → Except String (Json × List Char)
| 0, _, _, _ => Except.error "SyntaxError: JSON input exhausted parser fuel"
| Nat.succ fuel, input, first, acc =>
  match input with
  | [] => Except.error "SyntaxError: Unexpected end of JSON input"
  | c :: rest =>
    if first && c = ']' then Except.ok (Json.arr acc.reverse, rest)
    else
      match parseValue fuel (c :: rest) with
      | Except.error e => Except.error e
      | Except.ok p =>
        match skipWs p.2 with
        | ',' :: r2 => parseArrayBody fuel (skipWs r2) false (p.1 :: acc)
        | ']' :: r2 => Except.ok (Json.arr (p.1 :: acc).reverse, r2)
        | _ => Except.error "SyntaxError: Expected comma or bracket after array element in JSON"

/-- Members of a JSON object after the opening brace; same conventions as
`parseArrayBody`. -/
def parseObjectBody : Nat → List Char → Bool → List (String × Json) →
    Except String (Json × List Char)
| 0, _, _, _ => Except.error "SyntaxError: JSON input exhausted parser fuel"
| Nat.succ fuel, input, first, acc =>
  match input with
  | [] => Except.error "SyntaxError: Unexpected end of JSON input"
  | c :: rest =>
    if first && c = rbraceChar then Except.ok (Json.obj acc.reverse, rest)
    else if c = quoteChar then
      match parseStringAux [] rest with
      | Except.error e => Except.error e
      | Except.ok kp =>
        match skipWs kp.2 with
        | ':' :: r2 =>
          match parseValue fuel (skipWs r2) with
          | Except.error e => Except.error e
          | Except.ok vp =>
            match skipWs vp.2 with
            | [] => Except.error "SyntaxError: Unexpected end of JSON input"
            | c2 :: r3 =>
              if c2 = ',' then parseObjectBody fuel (skipWs r3) false ((kp.1, vp.1) :: acc)
              else if c2 = rbraceChar then
                Except.ok (Json.obj ((kp.1, vp.1) :: acc).reverse, r3)
              else
                Except.error "SyntaxError: Expected comma or brace after property value in JSON"
        | _ => Except.error "SyntaxError: Expected colon after property name in JSON"
    else Except.error "SyntaxError: Expected property name or brace in JSON"

end

/-- Model of the JavaScript `JSON.parse` builtin, restricted as noted on the
helper functions (none of the divergences touch any payload a claim uses).
A rejected parse is the thrown `SyntaxError`, carried on the error channel. -/
def jsonParse (s : String) : Except String Json :=
  match parseValue (s.length + 1) s.data with
  | Except.error e => Except.error e
  | Except.ok p =>
    if (skipWs p.2).isEmpty then Except.ok p.1
    else Except.error "SyntaxError: Unexpected non-whitespace character after JSON data"

/- -------------------- Stripe Checkout -------------------- -/

structure CheckoutSession : Type where
  id : String
  url : String
deriving DecidableEq, Repr

/-- The backend actor's remote `createCheckoutSession(items, successUrl,
cancelUrl)` operation (an external collaborator reached through `useActor`):
it settles either with its serialized (textual) payload or with a transport
failure, embedded as the error message. -/
def ActorFn : Type := List ShoppingItem → String → String → Except String String

/-- The part of `window.location` the mutation reads.  As in the browser,
`protocol` includes the trailing colon (e.g. `"https:"`). -/
structure BrowserLocation : Type where
  protocol : String
  host : String
deriving DecidableEq, Repr

/-- `` `${window.location.protocol}//${window.location.host}` ``. -/
def baseUrlOf (loc : BrowserLocation) : String :=
  loc.protocol ++ "//" ++ loc.host

/-- One outbound invocation of the actor's remote operation, with the
arguments it received. -/
structure RemoteCall : Type where
  items : List ShoppingItem
  successUrl : String
  cancelUrl : String
deriving DecidableEq, Repr

/-- The `mutationFn` of `useCreateCheckoutSession`.  `actor` is the value of
the external `useActor()` hook; `loc` is the `window.location` read at call
time.  Besides the settled outcome it returns the list of remote calls the
invocation performed.  Note the source ends with `JSON.parse(result) as
CheckoutSession`: the `as` cast is type-level only, so the runtime success
value is exactly the parsed JSON value, with no shape validation. -/
def createCheckoutSessionFn (actor : Option ActorFn) (loc : BrowserLocation)
    (items : List ShoppingItem) : Except String Json × List RemoteCall :=
  match actor with
  | none => (Except.error "Actor not available", [])
  | some a =>
    let baseUrl := baseUrlOf loc
    let successUrl := baseUrl ++ "/payment-success"
    let cancelUrl := baseUrl ++ "/payment-failure"
    let outcome : Except String Json :=
      match a items successUrl cancelUrl with
      | Except.error e => Except.error e
      | Except.ok result => jsonParse result
    (outcome, [{ items := items, successUrl := successUrl, cancelUrl := cancelUrl }])

/-- `useCreateCheckoutSession`: the hook closes over the actor obtained from
`useActor()`; the mutation input is the item list, paired here with the
`window.location` value present when the mutation runs (the source reads it
inside `mutationFn`, i.e. at call time). -/
def useCreateCheckoutSession (actor : Option ActorFn) :
    UseMutationResult (BrowserLocation × List ShoppingItem) (Except String Json × List RemoteCall) :=
  { mutationFn := fun p => createCheckoutSessionFn actor p.1 p.2 }

/-- First object field with the given name, as property lookup on a parsed
JSON object would find it. -/
def lookupField : List (String × Json) → String → Option Json
| [], _ => none
| p :: ps, k => if p.1 = k then some p.2 else lookupField ps k

/-- Stated from the spec's words, for comparison with the code: a payload
"deserialized into a `CheckoutSession` record" — the text must parse as a
JSON object carrying string fields `id` and `url`.  Used only to state
claims about the expected record shape. -/
def parsesAsCheckoutSession (payload : String) : Option CheckoutSession :=
  match jsonParse payload with
  | Except.ok (Json.obj fields) =>
    match lookupField fields "id", lookupField fields "url" with
    | some (Json.str i), some (Json.str u) => some { id := i, url := u }
    | _, _ => none
  | _ => none

/- -------------------- Spec-side wrappers (for the refinement claim) -------------------- -/

/-- Stated from the spec's words: the pro-features check is the base
feature-access operation at feature `pro_features`, scope `user` (no
scope/scopeId parameters of its own). -/
def specProFeaturesCheck : UseQueryResult FeatureAccess :=
  useCanAccessFeature "pro_features" FeatureScope.user none

/-- Stated from the spec's words: the advanced-chat check is the base
operation at feature `advanced_chat`, default scope `club`, forwarding its
scope/scopeId parameters unchanged. -/
def specAdvancedChatCheck (scope : FeatureScope := FeatureScope.club)
    (scopeId : Option String := none) : UseQueryResult FeatureAccess :=
  useCanAccessFeature "advanced_chat" scope scopeId

/-- Stated from the spec's words: the social-feed check is the base operation
at feature `social_feed`, default scope `club`, forwarding its scope/scopeId
parameters unchanged. -/
def specSocialFeedCheck (scope : FeatureScope := FeatureScope.club)
    (scopeId : Option String := none) : UseQueryResult FeatureAccess :=
  useCanAccessFeature "social_feed" scope scopeId

/-- Stated from the spec's words: the unlimited-announcements check is the
base operation at feature `unlimited_announcements`, default scope `club`,
forwarding its scope/scopeId parameters unchanged. -/
def specUnlimitedAnnouncementsCheck (scope : FeatureScope := FeatureScope.club)
    (scopeId : Option String := none) : UseQueryResult FeatureAccess :=
  useCanAccessFeature "unlimited_announcements" scope scopeId

/- -------------------- Claims -------------------- -/

/-- C1: for every feature name, scope and optional scopeId, the
feature-access check returns `{hasAccess := true, plan := Free}` when the
feature is in the fixed always-free allow-list and
`{hasAccess := false, plan := Free, reason := "stubbed"}` when it is not,
and the result does not depend on scope or scopeId. -/
theorem useCanAccessFeature_allowList_spec :
    ∀ (feature : String) (scope : FeatureScope) (scopeId : Option String),
      (useCanAccessFeature feature scope scopeId).queryFn =
        (if freeAllowed.contains feature then
          { hasAccess := true, plan := some Plan.Free }
        else
          { hasAccess := false, plan := some Plan.Free, reason := some "stubbed" }) ∧
      ∀ (scope2 : FeatureScope) (scopeId2 : Option String),
        (useCanAccessFeature feature scope scopeId).queryFn =
          (useCanAccessFeature feature scope2 scopeId2).queryFn :=
  fun _ _ _ => ⟨rfl, fun _ _ => rfl⟩

/-- C2: the always-free allow-list in the code is empty, so for every feature
name (the four named ones included) and every scope/scopeId the check returns
exactly `{hasAccess := false, plan := Free, reason := "stubbed"}`; no input
yields `hasAccess = true`. -/
theorem useCanAccessFeature_always_denies :
    freeAllowed = [] ∧
    ∀ (feature : String) (scope : FeatureScope) (scopeId : Option String),
      (useCanAccessFeature feature scope scopeId).queryFn =
        { hasAccess := false, plan := some Plan.Free, reason := some "stubbed" } ∧
      (useCanAccessFeature feature scope scopeId).queryFn.hasAccess = false :=
  ⟨rfl, fun _ _ _ => ⟨rfl, rfl⟩⟩

/-- C3: with no live actor, the checkout mutation rejects at once with the
error identifying the unavailable actor, and the list of remote calls it
performed is empty. -/
theorem useCreateCheckoutSession_noActor_rejects :
    ∀ (loc : BrowserLocation) (items : List ShoppingItem),
      (useCreateCheckoutSession none).mutationFn (loc, items) =
        (Except.error "Actor not available", []) :=
  fun _ _ => rfl

/-- C4: with a live actor whose remote call resolves with a textual payload,
the mutation's success value is the deserialization (`JSON.parse`) of that
payload; in particular, for the payload
`'{"id":"cs_1","url":"https://pay.example/cs_1"}'` the mutation resolves
with the JSON object deserializing into the record
`{id := "cs_1", url := "https://pay.example/cs_1"}`. -/
theorem useCreateCheckoutSession_parses_payload :
    (∀ (a : ActorFn) (loc : BrowserLocation) (items : List ShoppingItem) (payload : String),
      a items (baseUrlOf loc ++ "/payment-success") (baseUrlOf loc ++ "/payment-failure") =
          Except.ok payload →
        ((useCreateCheckoutSession (some a)).mutationFn (loc, items)).1 = jsonParse payload) ∧
    ((useCreateCheckoutSession (some (fun _ _ _ =>
          Except.ok "\x7b\"id\":\"cs_1\",\"url\":\"https://pay.example/cs_1\"\x7d"))).mutationFn
        ({ protocol := "https:", host := "pay.example" }, [])).1 =
      Except.ok (Json.obj
        [("id", Json.str "cs_1"), ("url", Json.str "https://pay.example/cs_1")]) ∧
    parsesAsCheckoutSession "\x7b\"id\":\"cs_1\",\"url\":\"https://pay.example/cs_1\"\x7d" =
      some { id := "cs_1", url := "https://pay.example/cs_1" } := by
  refine ⟨fun a loc items payload h => ?_, rfl, rfl⟩
  show (createCheckoutSessionFn (some a) loc items).1 = jsonParse payload
  simp [createCheckoutSessionFn, h]

/-- Witness for C4 at the concrete payload of the claim. -/
theorem useCreateCheckoutSession_parses_payload_witness :
    ((useCreateCheckoutSession (some (fun _ _ _ =>
          Except.ok "\x7b\"id\":\"cs_1\",\"url\":\"https://pay.example/cs_1\"\x7d"))).mutationFn
        ({ protocol := "https:", host := "pay.example" }, [])).1 =
      jsonParse "\x7b\"id\":\"cs_1\",\"url\":\"https://pay.example/cs_1\"\x7d" :=
  useCreateCheckoutSession_parses_payload.1
    (fun _ _ _ => Except.ok "\x7b\"id\":\"cs_1\",\"url\":\"https://pay.example/cs_1\"\x7d")
    { protocol := "https:", host := "pay.example" } []
    "\x7b\"id\":\"cs_1\",\"url\":\"https://pay.example/cs_1\"\x7d" rfl

/-- C5 counterexample: the payload `'{"ok":true}'` cannot be parsed into the
expected `CheckoutSession` record shape, yet the checkout mutation does not
reject — it resolves with the parsed JSON object, because the source's
`as CheckoutSession` cast performs no runtime validation. -/
theorem checkout_malformed_shape_counterexample :
    parsesAsCheckoutSession "\x7b\"ok\":true\x7d" = none ∧
    ((useCreateCheckoutSession (some (fun _ _ _ => Except.ok "\x7b\"ok\":true\x7d"))).mutationFn
        ({ protocol := "https:", host := "a.example" }, [])).1 =
      Except.ok (Json.obj [("ok", Json.bool true)]) :=
  ⟨rfl, rfl⟩

/-- C5 (amended): if the remote call's textual payload is not valid JSON text
(for example `'not json'`), the checkout mutation rejects, propagating the
parse failure; a payload that is valid JSON is returned without any check of
the `CheckoutSession` shape. -/
theorem checkout_invalid_json_rejects :
    ∀ (a : ActorFn) (loc : BrowserLocation) (items : List ShoppingItem)
      (payload e : String),
      a items (baseUrlOf loc ++ "/payment-success") (baseUrlOf loc ++ "/payment-failure") =
          Except.ok payload →
      jsonParse payload = Except.error e →
      ((useCreateCheckoutSession (some a)).mutationFn (loc, items)).1 = Except.error e := by
  intro a loc items payload e h hp
  show (createCheckoutSessionFn (some a) loc items).1 = Except.error e
  simp [createCheckoutSessionFn, h, hp]

/-- Witness for the amended C5 at the payload `'not json'`. -/
theorem checkout_invalid_json_rejects_witness :
    ((useCreateCheckoutSession (some (fun _ _ _ => Except.ok "not json"))).mutationFn
        ({ protocol := "https:", host := "a.example" }, [])).1 =
      Except.error "SyntaxError: Unexpected token in JSON" :=
  checkout_invalid_json_rejects (fun _ _ _ => Except.ok "not json")
    { protocol := "https:", host := "a.example" } [] "not json"
    "SyntaxError: Unexpected token in JSON" rfl rfl

/-- C6: with a live actor, the one remote call receives
`successUrl = <origin>/payment-success` and
`cancelUrl = <origin>/payment-failure`, built from the origin
(protocol + host) present at call time; invocations under the two mocked
origins `https://a.example` and `https://b.example` pass correspondingly
different URL pairs. -/
theorem checkout_urls_from_origin :
    (∀ (a : ActorFn) (loc : BrowserLocation) (items : List ShoppingItem),
      ((useCreateCheckoutSession (some a)).mutationFn (loc, items)).2 =
        [{ items := items,
           successUrl := baseUrlOf loc ++ "/payment-success",
           cancelUrl := baseUrlOf loc ++ "/payment-failure" }]) ∧
    (((useCreateCheckoutSession (some (fun _ _ _ => Except.ok "null"))).mutationFn
        ({ protocol := "https:", host := "a.example" }, [])).2.map RemoteCall.successUrl ≠
      ((useCreateCheckoutSession (some (fun _ _ _ => Except.ok "null"))).mutationFn
        ({ protocol := "https:", host := "b.example" }, [])).2.map RemoteCall.successUrl) ∧
    (((useCreateCheckoutSession (some (fun _ _ _ => Except.ok "null"))).mutationFn
        ({ protocol := "https:", host := "a.example" }, [])).2.map RemoteCall.cancelUrl ≠
      ((useCreateCheckoutSession (some (fun _ _ _ => Except.ok "null"))).mutationFn
        ({ protocol := "https:", host := "b.example" }, [])).2.map RemoteCall.cancelUrl) :=
  ⟨fun _ _ _ => rfl, by decide, by decide⟩

/-- C7: with a live actor, every invocation of the checkout mutation performs
exactly one outbound remote call, and a failure of that call is propagated
unchanged (the same error value, no wrapping, no second call). -/
theorem checkout_single_call_propagates_transport :
    ∀ (a : ActorFn) (loc : BrowserLocation) (items : List ShoppingItem),
      ((useCreateCheckoutSession (some a)).mutationFn (loc, items)).2.length = 1 ∧
      ∀ (e : String),
        a items (baseUrlOf loc ++ "/payment-success") (baseUrlOf loc ++ "/payment-failure") =
            Except.error e →
          ((useCreateCheckoutSession (some a)).mutationFn (loc, items)).1 = Except.error e := by
  intro a loc items
  refine ⟨rfl, fun e h => ?_⟩
  show (createCheckoutSessionFn (some a) loc items).1 = Except.error e
  simp [createCheckoutSessionFn, h]

/-- Witness for C7: a concrete failing actor; one call recorded, the error
propagated verbatim. -/
theorem checkout_single_call_propagates_transport_witness :
    ((useCreateCheckoutSession (some (fun _ _ _ => Except.error "network failure"))).mutationFn
        ({ protocol := "https:", host := "a.example" }, [])).2.length = 1 ∧
    ((useCreateCheckoutSession (some (fun _ _ _ => Except.error "network failure"))).mutationFn
        ({ protocol := "https:", host := "a.example" }, [])).1 =
      Except.error "network failure" :=
  ⟨(checkout_single_call_propagates_transport (fun _ _ _ => Except.error "network failure")
      { protocol := "https:", host := "a.example" } []).1,
   (checkout_single_call_propagates_transport (fun _ _ _ => Except.error "network failure")
      { protocol := "https:", host := "a.example" } []).2 "network failure" rfl⟩

/-- C8: the three subscription read stubs are the constants
`{plan := Free, status := none}`, `false` and `[]`, with no dependence on any
input or external state (each is a closed value in the embedding) and no
failure path. -/
theorem subscription_read_stubs_constant :
    useGetSubscriptionStatus.queryFn = { plan := Plan.Free, status := SubStatus.noneStatus } ∧
    useHasProAccess.queryFn = false ∧
    useGetAllSubscriptions.queryFn = [] :=
  ⟨rfl, rfl, rfl⟩

/-- C9: the upgrade-to-Pro mutation resolves to `{success := false}` for
every optional argument, and the cancel mutation resolves to
`{success := false}`; both are total pure functions in the embedding, so
neither rejects nor performs a side effect. -/
theorem upgrade_cancel_stubs_resolve_false :
    (∀ opts : Option UpgradeOpts,
      useUpgradeToProPlan.mutationFn opts = { success := false }) ∧
    useCancelProSubscription.mutationFn () = { success := false } :=
  ⟨fun _ => rfl, rfl⟩

/-- C10: each convenience feature-check equals the base feature-access check
at its fixed feature name (with the spec's default scope mirrored in the
definitions' default arguments), forwarding any scope/scopeId parameters
unchanged: pro-features at `pro_features`/`user`, advanced-chat at
`advanced_chat`, social-feed at `social_feed` and unlimited-announcements at
`unlimited_announcements`. -/
theorem convenience_wrappers_forward_to_base :
    useCanAccessProFeatures = specProFeaturesCheck ∧
    useCanAccessProFeatures = useCanAccessFeature "pro_features" FeatureScope.user none ∧
    (∀ (scope : FeatureScope) (scopeId : Option String),
      useCanAccessAdvancedChat scope scopeId = specAdvancedChatCheck scope scopeId ∧
      useCanAccessAdvancedChat scope scopeId =
        useCanAccessFeature "advanced_chat" scope scopeId) ∧
    (∀ (scope : FeatureScope) (scopeId : Option String),
      useCanAccessSocialFeed scope scopeId = specSocialFeedCheck scope scopeId ∧
      useCanAccessSocialFeed scope scopeId =
        useCanAccessFeature "social_feed" scope scopeId) ∧
    (∀ (scope : FeatureScope) (scopeId : Option String),
      useCanCreateUnlimitedAnnouncements scope scopeId =
        specUnlimitedAnnouncementsCheck scope scopeId ∧
      useCanCreateUnlimitedAnnouncements scope scopeId =
        useCanAccessFeature "unlimited_announcements" scope scopeId) :=
  ⟨rfl, rfl, fun _ _ => ⟨rfl, rfl⟩, fun _ _ => ⟨rfl, rfl⟩, fun _ _ => ⟨rfl, rfl⟩⟩
